import Mathlib

/-!
Verification development for pytest-forger.

The repository ships a CLI layer (`src/pytest_forger/cli.py`, the `forge`
command) on top of a core analysis-and-generation pipeline
(`pytest_forger.core`: `CodeAnalyzer.extract_functions` and
`generate_test_content`).  The CLI layer is embedded here directly from its
source; the core module is not part of the available sources, so its
definitions are modelled from the specification (each such definition says so
in its doc comment).
-/

namespace PytestForger

/-- Parameter kind classification, as in the spec data model (section 3):
one of positional-or-keyword, keyword-only, var-positional, var-keyword,
positional-only.  Mirrors Python `ast` parameter categories. -/
inductive ParamKind where
  | posOnly
  | posOrKw
  | varPos
  | kwOnly
  | varKw
deriving DecidableEq, Repr

/-- Modelled from the spec: `ParameterDescriptor` (section 3) — one entry per
formal parameter, with `name`, `kind`, an optional type-expression source
fragment (`annot`, the spec field holding the annotation text) and an optional
default-value source fragment (`default`); both fragments are carried as
literal source text, never evaluated. -/
structure ParameterDescriptor where
  name : String
  kind : ParamKind
  annot : Option String
  default : Option String
deriving DecidableEq, Repr

/-- A formal argument as it appears in a Python `ast.arg` node: a name and an
optional annotation source fragment. -/
structure Arg where
  name : String
  annot : Option String
deriving DecidableEq, Repr

/-- The argument list of a function definition, shaped like Python
`ast.arguments`: positional-only args, positional-or-keyword args, optional
`*args` vararg, keyword-only args with their (optional) defaults aligned
element-wise, optional `**kwargs` kwarg, and `defaults` aligned to the tail
of `posonlyargs ++ args`. -/
structure Arguments where
  posonlyargs : List Arg
  args : List Arg
  vararg : Option Arg
  kwonlyargs : List Arg
  kw_defaults : List (Option String)
  kwarg : Option Arg
  defaults : List String
deriving DecidableEq, Repr

/-- Statements of a parsed Python module, restricted to the shapes the
analyzer inspects: (possibly async) function definitions, class definitions,
bare string-literal expression statements (docstring candidates), and
anything else (`other`). -/
inductive PyStmt where
  | funcDef (name : String) (args : Arguments) (isAsync : Bool)
      (decorators : List String) (lineno : Nat) (body : List PyStmt)
  | classDef (name : String) (decorators : List String) (lineno : Nat)
      (body : List PyStmt)
  | exprString (s : String)
  | other

/-- Modelled from the spec: `CallableDescriptor` (section 3) — one entry per
discovered function/method: name, ordered parameters, async marker, method
marker, decorator source fragments, optional docstring, and source line. -/
structure CallableDescriptor where
  name : String
  parameters : List ParameterDescriptor
  is_async : Bool
  is_method : Bool
  decorators : List String
  docstring : Option String
  lineno : Nat
deriving DecidableEq, Repr

/-- Modelled from the spec: extraction of the ordered parameter list from a
definition's argument node (section 4.1, step 4): kinds are classified
exactly as declared, declaration order is preserved
(positional-only, then positional-or-keyword, then `*args`, then
keyword-only, then `**kwargs`), defaults are aligned to the tail of the
positional parameters as Python's `ast` stores them, and keyword-only
defaults come from the element-wise `kw_defaults` list. -/
def extractParams (a : Arguments) : List ParameterDescriptor :=
  let positional :=
    a.posonlyargs.map (fun x => (x, ParamKind.posOnly)) ++
    a.args.map (fun x => (x, ParamKind.posOrKw))
  let nd := positional.length - a.defaults.length
  let pos := positional.enum.map (fun p =>
    { name := p.2.1.name, kind := p.2.2, annot := p.2.1.annot,
      default := if nd ≤ p.1 then a.defaults.get? (p.1 - nd) else none })
  let var := match a.vararg with
    | some x => [{ name := x.name, kind := ParamKind.varPos,
                   annot := x.annot, default := none }]
    | none => []
  let kws := (a.kwonlyargs.zip a.kw_defaults).map (fun p =>
    { name := p.1.name, kind := ParamKind.kwOnly, annot := p.1.annot,
      default := p.2 })
  let kwv := match a.kwarg with
    | some x => [{ name := x.name, kind := ParamKind.varKw,
                   annot := x.annot, default := none }]
    | none => []
  pos ++ var ++ kws ++ kwv

/-- Modelled from the spec: the docstring is the first statement of the body
when it is a bare string literal (section 4.1, step 4). -/
def docstringOf : List PyStmt → Option String
  | PyStmt.exprString s :: _ => some s
  | _ => none

/-- Modelled from the spec: build one `CallableDescriptor` from a visited
function definition (section 4.1, step 4). -/
def descrOfFunc (isMethod : Bool) (name : String) (args : Arguments)
    (isAsync : Bool) (decorators : List String) (lineno : Nat)
    (body : List PyStmt) : CallableDescriptor :=
  { name := name, parameters := extractParams args, is_async := isAsync,
    is_method := isMethod, decorators := decorators,
    docstring := docstringOf body, lineno := lineno }

/-- Modelled from the spec: the descriptor of one directly class-nested
method definition, or `none` for any other class-body statement
(section 4.1, step 3). -/
def methodDescr (t : PyStmt) : Option CallableDescriptor :=
  match t with
  | PyStmt.funcDef n a async dec ln b => some (descrOfFunc true n a async dec ln b)
  | _ => none

/-- Modelled from the spec: descriptors contributed by one module-level
statement — a function definition yields its own descriptor, a class
definition yields the descriptors of its directly nested methods, anything
else yields nothing (section 4.1, step 3). -/
def stmtDescrs (s : PyStmt) : List CallableDescriptor :=
  match s with
  | PyStmt.funcDef n a async dec ln body =>
      [descrOfFunc false n a async dec ln body]
  | PyStmt.classDef _ _ _ body => body.filterMap methodDescr
  | _ => []

/-- Modelled from the spec: `extract_functions` (section 4.1) applied to the
parsed module — the `pytest_forger.core` analyzer is not among the available
sources.  Walks the tree top-down, emitting module-level function
definitions and, for every module-level class definition, its directly
nested method definitions (one level of nesting only); functions nested
inside other functions are not emitted; descriptors are returned in
first-encountered (definition) order. -/
def extract_functions (m : List PyStmt) : List CallableDescriptor :=
  m.flatMap stmtDescrs

/-- Whether a statement is a (possibly async) function definition. -/
def isFuncDef (s : PyStmt) : Bool :=
  match s with
  | PyStmt.funcDef _ _ _ _ _ _ => true
  | _ => false

/-- Count of module-level function definitions in a parsed module. -/
def countModuleFuncs (m : List PyStmt) : Nat := m.countP isFuncDef

/-- Count of method definitions directly nested in one statement (nonzero
only for class definitions). -/
def classMethodCount (s : PyStmt) : Nat :=
  match s with
  | PyStmt.classDef _ _ _ body => body.countP isFuncDef
  | _ => 0

/-- Count of class-nested method definitions (direct children of
module-level class definitions only). -/
def countClassMethods (m : List PyStmt) : Nat :=
  (m.map classMethodCount).sum

/-- Replace a function body by just its docstring statement (when present),
discarding every nested statement — in particular every function definition
nested inside the function. -/
def eraseFnBody (body : List PyStmt) : List PyStmt :=
  match docstringOf body with
  | some s => [PyStmt.exprString s]
  | none => []

/-- Erase the bodies of all function definitions reachable by the analyzer
walk (module-level functions and class-nested methods), keeping only their
docstrings. -/
def eraseBodies (s : PyStmt) : PyStmt :=
  match s with
  | PyStmt.funcDef n a async dec ln body =>
      PyStmt.funcDef n a async dec ln (eraseFnBody body)
  | PyStmt.classDef n dec ln body =>
      PyStmt.classDef n dec ln (body.map (fun t =>
        match t with
        | PyStmt.funcDef n2 a2 as2 d2 l2 b2 =>
            PyStmt.funcDef n2 a2 as2 d2 l2 (eraseFnBody b2)
        | t2 => t2))
  | t => t

/-- Modelled from the spec: test-name assignment with collision handling
(section 4.2, step 3): each test is named `test_<callable name>`; the first
occurrence of a base name keeps it, and subsequent occurrences of the same
base name get suffixes `_2`, `_3`, … in descriptor order.  `collideName k d`
is the test name of an occurrence of base name `d` preceded by `k` earlier
occurrences of the same base name. -/
def collideName (k : Nat) (d : String) : String :=
  if k = 0 then "test_" ++ d else "test_" ++ d ++ "_" ++ toString (k + 1)

/-- Worker for `testNames`: assign each base name in turn, suffixing by the
number of earlier occurrences recorded in `seen`. -/
def testNamesGo : List String → List String → List String
  | _, [] => []
  | seen, d :: rest => collideName (seen.count d) d :: testNamesGo (d :: seen) rest

/-- Test names assigned to a sequence of callable base names, in order. -/
def testNames (ds : List String) : List String := testNamesGo [] ds

/-- Test names assigned to a descriptor sequence. -/
def testNamesFor (descs : List CallableDescriptor) : List String :=
  testNames (descs.map CallableDescriptor.name)

/-- Modelled from the spec: placeholder arguments of the stub call
(section 4.2, step 3b): one positional placeholder per required parameter
lacking a default, an explicit keyword placeholder for each parameter that
declares one, and no argument at all for variadic parameters. -/
def argPlaceholders (d : CallableDescriptor) : List String :=
  d.parameters.filterMap (fun p =>
    match p.kind with
    | ParamKind.varPos => none
    | ParamKind.varKw => none
    | _ =>
        match p.default with
        | some _ => some (p.name ++ "=None")
        | none => some "None")

/-- Modelled from the spec: render one test definition (section 4.2,
step 3): the test is async and awaits the call when the callable is async;
a method call is flagged with a leading instance-fixture placeholder
comment; the body ends in a placeholder failing assertion. -/
def renderTest (d : CallableDescriptor) (tname : String) : String :=
  let header := (if d.is_async then "async def " else "def ") ++ tname ++ "():\n"
  let fixtureNote :=
    if d.is_method then "    # TODO: supply an instance fixture for this method\n"
    else ""
  let call := d.name ++ "(" ++ String.intercalate ", " (argPlaceholders d) ++ ")"
  let callLine := "    " ++ (if d.is_async then "await " ++ call else call) ++ "\n"
  header ++ fixtureNote ++ callLine ++ "    assert False  # TODO: write real assertions\n"

/-- Index (0-based) of the last '.' in a character list, if any — the
character-list counterpart of Python `str.rfind(chr(46))`. -/
def lastDotIdx : List Char → Option Nat
  | [] => none
  | c :: cs =>
      match lastDotIdx cs with
      | some i => some (i + 1)
      | none => if c = '.' then some 0 else none

/-- Stem of a path's final component, following CPython `pathlib`:
with `i` the index of the last dot, the suffix `name[i:]` is split off
exactly when `0 < i < len(name) - 1`; otherwise the name is its own stem. -/
def stemList (cs : List Char) : List Char :=
  match lastDotIdx cs with
  | some i => if 0 < i ∧ i + 1 < cs.length then cs.take i else cs
  | none => cs

/-- Final component of a path string, following CPython `pathlib`
(`Path.name`): trailing slashes are dropped, then everything after the last
remaining slash is the name. -/
def baseNameList (cs : List Char) : List Char :=
  ((cs.reverse.dropWhile (· = '/')).takeWhile (· ≠ '/')).reverse

/-- String version of `baseNameList` — models `pathlib.Path(p).name`. -/
def baseName (p : String) : String := String.mk (baseNameList p.data)

/-- String version of `stemList` composed with `baseName` — models
`pathlib.Path(p).stem`. -/
def pathStem (p : String) : String := String.mk (stemList (baseName p).data)

/-- Modelled from the spec: `generate_test_content` (section 4.2) — the
`pytest_forger.core` generator is not among the available sources.  Emits a
deterministic header (the import of the original module derived from the
source path's stem, plus the test-framework import), then one test
definition per descriptor separated by blank lines; the operation is pure
and total (it performs no I/O and cannot fail), so it succeeds on any
descriptor sequence, including the empty one. -/
def generate_test_content (sourcePath : String) (descs : List CallableDescriptor) : String :=
  let module := pathStem sourcePath
  let header := "import pytest\n\nfrom " ++ module ++ " import *\n"
  let names := testNamesFor descs
  header ++ String.join ((descs.zip names).map (fun p => "\n" ++ renderTest p.1 p.2))

/-- Messages the `forge` command emits (`typer.echo` / `typer.secho` calls in
`cli.py`), with their data payloads. -/
inductive Msg where
  | errorNotFound (sourceFile : String)
  | analyzing (sourceFile : String)
  | errorParsing (e : String)
  | warnFunctionNotFound (name : String)
  | foundCount (n : Nat)
  | createdDir (dir : String)
  | warnAlreadyExists (dir : String) (filename : String)
  | success (dir : String) (filename : String)
  | generatedFor (name : String)
  | errorWriting (e : String)
deriving DecidableEq, Repr

/-- Arguments of the `forge` CLI command (`cli.py`, `forge`): the source
file path, the optional `--function` filter, the optional `--output`
directory, and the `--overwrite` / `--verbose` flags. -/
structure ForgeArgs where
  sourceFile : String
  functionName : Option String := none
  outputDir : Option String := none
  overwrite : Bool := false
  verbose : Bool := false

/-- Environment of one `forge` run: what the filesystem and the analyzer
answer at each interaction point.  `parseResult` is the outcome of
`CodeAnalyzer(src_path)` + parsing (the parsed module on success, the
exception text on failure — read errors and syntax errors are both caught by
the same handler in `cli.py`); `writeResult` is the outcome of opening and
writing the destination test file. -/
structure ForgeEnv where
  srcIsFile : Bool
  parseResult : Except String (List PyStmt)
  outDirExists : Bool
  testFileExists : Bool
  writeResult : Except String Unit

/-- Observable outcome of one `forge` run: the process exit code, the
emitted messages in order, whether parsing was attempted, whether the output
directory was created, the generated content (if generation ran), the
written file (name and content, if the write succeeded), and how many write
attempts were made. -/
structure ForgeResult where
  exitCode : Nat
  messages : List Msg
  parseAttempted : Bool
  dirCreated : Bool
  generated : Option String
  written : Option (String × String)
  writeAttempts : Nat

/-- Embedding of the `forge` command of `src/pytest_forger/cli.py`:
1. validation — missing or non-regular source file exits 1 at once;
2. parsing — any exception is reported as a parse error and exits 1;
3. optional `--function` filter (Python truthiness: `None` and the empty
   string both skip the filter), warning when the filtered set is empty;
4. output-directory preparation (created when absent);
5. the already-exists guard (exit 0 with a warning, nothing generated or
   written, unless `--overwrite`);
6. content generation and the guarded write (success exits 0; an `IOError`
   is reported and exits 1). -/
def forge (env : ForgeEnv) (args : ForgeArgs) : ForgeResult :=
  if !env.srcIsFile then
    { exitCode := 1, messages := [Msg.errorNotFound args.sourceFile],
      parseAttempted := false, dirCreated := false, generated := none,
      written := none, writeAttempts := 0 }
  else
    let msgs0 := if args.verbose then [Msg.analyzing args.sourceFile] else []
    match env.parseResult with
    | Except.error e =>
        { exitCode := 1, messages := msgs0 ++ [Msg.errorParsing e],
          parseAttempted := true, dirCreated := false, generated := none,
          written := none, writeAttempts := 0 }
    | Except.ok m =>
        let fns := extract_functions m
        let filtered :=
          match args.functionName with
          | some n => if n = "" then fns else fns.filter (fun f => f.name == n)
          | none => fns
        let warnMsgs :=
          match args.functionName with
          | some n =>
              if n = "" then []
              else if (fns.filter (fun f => f.name == n)).isEmpty then
                [Msg.warnFunctionNotFound n]
              else []
          | none => []
        let msgs1 := msgs0 ++ warnMsgs ++
          (if args.verbose then [Msg.foundCount filtered.length] else [])
        let outDir := args.outputDir.getD "tests"
        let mkDir := !env.outDirExists
        let msgs2 := msgs1 ++
          (if mkDir && args.verbose then [Msg.createdDir outDir] else [])
        let tfn := "test_" ++ pathStem args.sourceFile ++ ".py"
        if env.testFileExists && !args.overwrite then
          { exitCode := 0,
            messages := msgs2 ++ [Msg.warnAlreadyExists outDir tfn],
            parseAttempted := true, dirCreated := mkDir, generated := none,
            written := none, writeAttempts := 0 }
        else
          let content := generate_test_content args.sourceFile filtered
          match env.writeResult with
          | Except.ok _ =>
              { exitCode := 0,
                messages := msgs2 ++ [Msg.success outDir tfn] ++
                  (if args.verbose then
                    filtered.map (fun f => Msg.generatedFor f.name)
                  else []),
                parseAttempted := true, dirCreated := mkDir,
                generated := some content, written := some (tfn, content),
                writeAttempts := 1 }
          | Except.error e =>
              { exitCode := 1, messages := msgs2 ++ [Msg.errorWriting e],
                parseAttempted := true, dirCreated := mkDir,
                generated := some content, written := none,
                writeAttempts := 1 }

/-! ## Helper lemmas -/

theorem docstringOf_eraseFnBody (body : List PyStmt) :
    docstringOf (eraseFnBody body) = docstringOf body := by
  unfold eraseFnBody
  cases h : docstringOf body <;> simp [docstringOf]

theorem length_filterMap_methodDescr (body : List PyStmt) :
    (body.filterMap methodDescr).length = body.countP isFuncDef := by
  induction body with
  | nil => rfl
  | cons t ts ih =>
      cases t <;> simp [methodDescr, isFuncDef, List.countP_cons, ih]

theorem length_stmtDescrs (s : PyStmt) :
    (stmtDescrs s).length = (if isFuncDef s then 1 else 0) + classMethodCount s := by
  cases s <;> simp [stmtDescrs, isFuncDef, classMethodCount, length_filterMap_methodDescr]

theorem stmtDescrs_eraseBodies (s : PyStmt) :
    stmtDescrs (eraseBodies s) = stmtDescrs s := by
  cases s with
  | funcDef n a async dec ln body =>
      simp [eraseBodies, stmtDescrs, descrOfFunc, docstringOf_eraseFnBody]
  | classDef n dec ln body =>
      simp only [eraseBodies, stmtDescrs, List.filterMap_map]
      induction body with
      | nil => rfl
      | cons t ts ih =>
          cases t <;>
            simp [List.filterMap_cons, Function.comp, methodDescr, descrOfFunc,
              docstringOf_eraseFnBody, ih]
  | exprString s => rfl
  | other => rfl

theorem extract_functions_cons (s : PyStmt) (m : List PyStmt) :
    extract_functions (s :: m) = stmtDescrs s ++ extract_functions m := by
  simp [extract_functions]

theorem testNamesGo_get? (ds : List String) :
    ∀ (seen : List String) (i : Nat),
      (testNamesGo seen ds).get? i =
        (ds.get? i).map (fun d => collideName (seen.count d + (ds.take i).count d) d) := by
  induction ds with
  | nil => intro seen i; simp [testNamesGo]
  | cons d rest ih =>
      intro seen i
      cases i with
      | zero => simp [testNamesGo]
      | succ j =>
          simp only [testNamesGo, List.get?_cons_succ, List.take_succ_cons]
          rw [ih (d :: seen) j]
          cases h : rest.get? j with
          | none => rfl
          | some x =>
              simp only [Option.map_some']
              have hc : (d :: seen).count x + (rest.take j).count x =
                  seen.count x + (d :: rest.take j).count x := by
                simp [List.count_cons]
                omega
              rw [hc]

theorem lastDotIdx_eq_none (l : List Char) (h : '.' ∉ l) : lastDotIdx l = none := by
  induction l with
  | nil => rfl
  | cons c cs ih =>
      have hc : c ≠ '.' := fun he => h (he ▸ List.mem_cons_self c cs)
      have hcs : '.' ∉ cs := fun hm => h (List.mem_cons_of_mem c hm)
      simp [lastDotIdx, ih hcs, hc]

theorem lastDotIdx_append_py (s : List Char) (h : '.' ∉ s) :
    lastDotIdx (s ++ ('.' :: ['p', 'y'])) = some s.length := by
  induction s with
  | nil =>
      have : lastDotIdx ['p', 'y'] = none := lastDotIdx_eq_none _ (by decide)
      simp [lastDotIdx, this]
  | cons c cs ih =>
      have hc : c ≠ '.' := fun he => h (he ▸ List.mem_cons_self c cs)
      have hcs : '.' ∉ cs := fun hm => h (List.mem_cons_of_mem c hm)
      simp [lastDotIdx, ih hcs]

theorem stemList_append_py (s : List Char) (hne : s ≠ []) (h : '.' ∉ s) :
    stemList (s ++ ('.' :: ['p', 'y'])) = s := by
  unfold stemList
  rw [lastDotIdx_append_py s h]
  have h0 : 0 < s.length := List.length_pos.mpr hne
  have h1 : s.length + 1 < (s ++ ('.' :: ['p', 'y'])).length := by
    simp [List.length_append]
  simp only [h0, h1, and_self, if_pos]
  exact List.take_left s _

theorem pathStem_eq_of_baseName (p s : String) (hb : baseName p = s ++ ".py")
    (hne : s ≠ "") (hdot : '.' ∉ s.data) : pathStem p = s := by
  have hdata : (baseName p).data = s.data ++ ('.' :: ['p', 'y']) := by
    rw [hb, String.data_append]
  have hne' : s.data ≠ [] := by
    intro h0
    apply hne
    cases s with
    | mk d =>
        simp only at h0
        rw [h0]
  unfold pathStem
  rw [hdata, stemList_append_py s.data hne' hdot]

/-! ## Claims -/

/-- Concrete environment for the C1 witness: the source file exists and
parses to the empty module, and the destination test file already exists. -/
def envC1 : ForgeEnv :=
  { srcIsFile := true, parseResult := Except.ok [], outDirExists := true,
    testFileExists := true, writeResult := Except.ok () }

/-- Concrete arguments for the C1 witness: no overwrite flag. -/
def argsC1 : ForgeArgs := { sourceFile := "calc.py" }

/-- C1: whenever the destination test file already exists and `--overwrite`
was not given, the `forge` run skips generation (nothing is generated),
writes no file, warns, and exits with status 0. -/
theorem claim_C1_already_exists_skips_generation (env : ForgeEnv) (args : ForgeArgs)
    (m : List PyStmt) (hs : env.srcIsFile = true)
    (hp : env.parseResult = Except.ok m) (ht : env.testFileExists = true)
    (hw : args.overwrite = false) :
    (forge env args).exitCode = 0 ∧ (forge env args).generated = none ∧
    (forge env args).written = none ∧
    Msg.warnAlreadyExists (args.outputDir.getD "tests")
      ("test_" ++ pathStem args.sourceFile ++ ".py") ∈ (forge env args).messages := by
  simp [forge, hs, hp, ht, hw]

/-- Witness for C1 at a concrete run. -/
theorem claim_C1_witness :
    (forge envC1 argsC1).exitCode = 0 ∧ (forge envC1 argsC1).generated = none ∧
    (forge envC1 argsC1).written = none ∧
    Msg.warnAlreadyExists (argsC1.outputDir.getD "tests")
      ("test_" ++ pathStem argsC1.sourceFile ++ ".py") ∈ (forge envC1 argsC1).messages :=
  claim_C1_already_exists_skips_generation envC1 argsC1 [] rfl rfl rfl rfl

/-- Empty argument list node, for concrete function definitions. -/
def emptyArgs : Arguments :=
  { posonlyargs := [], args := [], vararg := none, kwonlyargs := [],
    kw_defaults := [], kwarg := none, defaults := [] }

/-- Concrete module for the C2 witness: two functions `alpha` and `beta`. -/
def modC2 : List PyStmt :=
  [PyStmt.funcDef "alpha" emptyArgs false [] 1 [],
   PyStmt.funcDef "beta" emptyArgs false [] 4 []]

/-- Concrete environment for the C2 witness. -/
def envC2 : ForgeEnv :=
  { srcIsFile := true, parseResult := Except.ok modC2, outDirExists := true,
    testFileExists := false, writeResult := Except.ok () }

/-- Concrete arguments for the C2 witness: filter by the absent name
`gamma`. -/
def argsC2 : ForgeArgs := { sourceFile := "calc.py", functionName := some "gamma" }

/-- C2: whenever the requested `--function` name matches no discovered
callable, the `forge` run emits the non-fatal not-found warning and still
proceeds: generation runs on the (empty) filtered descriptor set, the file
is written with the content generated from the empty set, and the run exits
with status 0. -/
theorem claim_C2_filter_not_found_proceeds (env : ForgeEnv) (args : ForgeArgs)
    (m : List PyStmt) (n : String) (hs : env.srcIsFile = true)
    (hp : env.parseResult = Except.ok m) (hn : args.functionName = some n)
    (hne : n ≠ "") (hmiss : ∀ f ∈ extract_functions m, f.name ≠ n)
    (ht : env.testFileExists = false) (hw : env.writeResult = Except.ok ()) :
    Msg.warnFunctionNotFound n ∈ (forge env args).messages ∧
    (forge env args).exitCode = 0 ∧
    (forge env args).written =
      some ("test_" ++ pathStem args.sourceFile ++ ".py",
            generate_test_content args.sourceFile []) := by
  have hfil : (extract_functions m).filter (fun f => f.name == n) = [] := by
    rw [List.filter_eq_nil_iff]
    intro a ha
    simpa using hmiss a ha
  simp [forge, hs, hp, hn, hne, hfil, ht, hw]

/-- Witness for C2 at the spec's own scenario (descriptors `alpha`, `beta`,
requested name `gamma`). -/
theorem claim_C2_witness :
    Msg.warnFunctionNotFound "gamma" ∈ (forge envC2 argsC2).messages ∧
    (forge envC2 argsC2).exitCode = 0 ∧
    (forge envC2 argsC2).written =
      some ("test_" ++ pathStem argsC2.sourceFile ++ ".py",
            generate_test_content argsC2.sourceFile []) :=
  claim_C2_filter_not_found_proceeds envC2 argsC2 modC2 "gamma" rfl rfl rfl
    (by decide) (by decide) rfl rfl

/-- Concrete environment for the C3 witness: parsing fails with a syntax
diagnostic. -/
def envC3 : ForgeEnv :=
  { srcIsFile := true,
    parseResult := Except.error "invalid syntax (line 3, column 7)",
    outDirExists := true, testFileExists := false, writeResult := Except.ok () }

/-- Concrete arguments for the C3 witness. -/
def argsC3 : ForgeArgs := { sourceFile := "calc.py" }

/-- C3: whenever the source does not parse, the `forge` run reports the
parse error carrying the underlying diagnostic, exits with status 1, and
produces no partial result: nothing is generated, no file is written, and
no write is even attempted. -/
theorem claim_C3_parse_error_all_or_nothing (env : ForgeEnv) (args : ForgeArgs)
    (e : String) (hs : env.srcIsFile = true)
    (hp : env.parseResult = Except.error e) :
    (forge env args).exitCode = 1 ∧ (forge env args).generated = none ∧
    (forge env args).written = none ∧ (forge env args).writeAttempts = 0 ∧
    Msg.errorParsing e ∈ (forge env args).messages := by
  simp [forge, hs, hp]

/-- Witness for C3 at a concrete run. -/
theorem claim_C3_witness :
    (forge envC3 argsC3).exitCode = 1 ∧ (forge envC3 argsC3).generated = none ∧
    (forge envC3 argsC3).written = none ∧ (forge envC3 argsC3).writeAttempts = 0 ∧
    Msg.errorParsing "invalid syntax (line 3, column 7)" ∈ (forge envC3 argsC3).messages :=
  claim_C3_parse_error_all_or_nothing envC3 argsC3 "invalid syntax (line 3, column 7)"
    rfl rfl

/-- Concrete environment for the C4 witness: a fresh successful run. -/
def envC4 : ForgeEnv :=
  { srcIsFile := true, parseResult := Except.ok [], outDirExists := true,
    testFileExists := false, writeResult := Except.ok () }

/-- Concrete arguments for the C4 witness. -/
def argsC4 : ForgeArgs := { sourceFile := "calc.py" }

/-- C4: every file a `forge` run writes is named
`test_<stem of the source path>.py`; in particular, when the source file's
name is `<stem>.py` (a nonempty stem with no further dot), the written name
is exactly `test_<stem>.py`. -/
theorem claim_C4_written_filename (env : ForgeEnv) (args : ForgeArgs)
    (fn content : String) (h : (forge env args).written = some (fn, content)) :
    fn = "test_" ++ pathStem args.sourceFile ++ ".py" ∧
    ∀ s : String, baseName args.sourceFile = s ++ ".py" → s ≠ "" →
      '.' ∉ s.data → fn = "test_" ++ s ++ ".py" := by
  have hfn : fn = "test_" ++ pathStem args.sourceFile ++ ".py" := by
    cases hs : env.srcIsFile with
    | false => simp [forge, hs] at h
    | true =>
        cases hp : env.parseResult with
        | error e => simp [forge, hs, hp] at h
        | ok m =>
            cases hw : env.writeResult with
            | error e =>
                cases hex : env.testFileExists <;> cases hov : args.overwrite <;>
                  simp [forge, hs, hp, hw, hex, hov] at h
            | ok u =>
                cases hex : env.testFileExists <;> cases hov : args.overwrite <;>
                  simp [forge, hs, hp, hw, hex, hov] at h <;>
                  exact h.1.symm
  refine ⟨hfn, ?_⟩
  intro s hb hne hdot
  rw [hfn, pathStem_eq_of_baseName args.sourceFile s hb hne hdot]

/-- Witness for C4 at a concrete run on `calc.py`. -/
theorem claim_C4_witness : "test_calc.py" = "test_" ++ "calc" ++ ".py" :=
  (claim_C4_written_filename envC4 argsC4 "test_calc.py"
      (generate_test_content "calc.py" []) (by decide)).2
    "calc" (by decide) (by decide) (by decide)

/-- Concrete environment for the C5 witness: the write fails. -/
def envC5 : ForgeEnv :=
  { srcIsFile := true, parseResult := Except.ok [], outDirExists := true,
    testFileExists := false,
    writeResult := Except.error "Permission denied: tests/test_calc.py" }

/-- Concrete arguments for the C5 witness. -/
def argsC5 : ForgeArgs := { sourceFile := "calc.py" }

/-- C5: whenever writing the destination test file raises an `IOError`, the
`forge` run reports that error verbatim (the emitted message carries the
error text unchanged), makes exactly one write attempt (no retry), records
no written file, and exits with status 1. -/
theorem claim_C5_write_error_reported (env : ForgeEnv) (args : ForgeArgs)
    (m : List PyStmt) (e : String) (hs : env.srcIsFile = true)
    (hp : env.parseResult = Except.ok m)
    (hguard : env.testFileExists = false ∨ args.overwrite = true)
    (hw : env.writeResult = Except.error e) :
    (forge env args).exitCode = 1 ∧ (forge env args).written = none ∧
    (forge env args).writeAttempts = 1 ∧
    Msg.errorWriting e ∈ (forge env args).messages := by
  cases hguard with
  | inl hg => simp [forge, hs, hp, hg, hw]
  | inr hg => simp [forge, hs, hp, hg, hw]

/-- Witness for C5 at a concrete run. -/
theorem claim_C5_witness :
    (forge envC5 argsC5).exitCode = 1 ∧ (forge envC5 argsC5).written = none ∧
    (forge envC5 argsC5).writeAttempts = 1 ∧
    Msg.errorWriting "Permission denied: tests/test_calc.py" ∈ (forge envC5 argsC5).messages :=
  claim_C5_write_error_reported envC5 argsC5 []
    "Permission denied: tests/test_calc.py" rfl rfl (Or.inl rfl) rfl

/-- C6: on every parsed module, `extract_functions` returns exactly one
descriptor per module-level function definition plus one per directly
class-nested method definition, and the result never reflects anything
nested inside a function body beyond its docstring — in particular,
functions nested inside other functions are never emitted (erasing every
function body down to its docstring leaves the output unchanged). -/
theorem claim_C6_extraction_count_and_no_nested (m : List PyStmt) :
    (extract_functions m).length = countModuleFuncs m + countClassMethods m ∧
    extract_functions (m.map eraseBodies) = extract_functions m := by
  constructor
  · induction m with
    | nil => rfl
    | cons s ms ih =>
        rw [extract_functions_cons, List.length_append, ih, length_stmtDescrs]
        simp only [countModuleFuncs, countClassMethods, List.countP_cons,
          List.map_cons, List.sum_cons]
        cases hf : isFuncDef s <;> simp [hf] <;> omega
  · induction m with
    | nil => rfl
    | cons s ms ih =>
        rw [List.map_cons, extract_functions_cons, extract_functions_cons,
          stmtDescrs_eraseBodies, ih]

/-- Descriptor with a given name and no parameters, for concrete
generator scenarios. -/
def namedDescr (nm : String) (ln : Nat) : CallableDescriptor :=
  { name := nm, parameters := [], is_async := false, is_method := false,
    decorators := [], docstring := none, lineno := ln }

/-- C7: the generator's test names follow `test_<callable name>` with stable
first-occurrence collision resolution — position `i` gets the plain
`test_<name>` when no earlier descriptor has the same name, and the suffix
`_<k+1>` when `k` earlier descriptors share it; on descriptors named `run`,
`run`, `load` this yields `test_run`, `test_run_2`, `test_load`. -/
theorem claim_C7_test_name_collision_policy :
    (∀ (ds : List String) (i : Nat),
      (testNames ds).get? i =
        (ds.get? i).map (fun d => collideName ((ds.take i).count d) d)) ∧
    testNamesFor [namedDescr "run" 1, namedDescr "run" 5, namedDescr "load" 9] =
      ["test_run", "test_run_2", "test_load"] := by
  constructor
  · intro ds i
    simpa [testNames] using testNamesGo_get? ds [] i
  · decide

/-- Argument node of `def f(a, b=1, *args, c, **kw)` as Python's `ast`
module represents it. -/
def argsOfF : Arguments :=
  { posonlyargs := [], args := [⟨"a", none⟩, ⟨"b", none⟩],
    vararg := some ⟨"args", none⟩, kwonlyargs := [⟨"c", none⟩],
    kw_defaults := [none], kwarg := some ⟨"kw", none⟩, defaults := ["1"] }

/-- Module containing just the definition `def f(a, b=1, *args, c, **kw)`. -/
def modF : List PyStmt := [PyStmt.funcDef "f" argsOfF false [] 1 []]

/-- C8: on `def f(a, b=1, *args, c, **kw)`, extraction yields exactly five
parameter descriptors whose kinds are, in order, positional-or-keyword,
positional-or-keyword, var-positional, keyword-only, var-keyword, with only
`b` carrying a default. -/
theorem claim_C8_roundtrip_param_fidelity :
    (extract_functions modF).map CallableDescriptor.parameters =
      [[⟨"a", ParamKind.posOrKw, none, none⟩,
        ⟨"b", ParamKind.posOrKw, none, some "1"⟩,
        ⟨"args", ParamKind.varPos, none, none⟩,
        ⟨"c", ParamKind.kwOnly, none, none⟩,
        ⟨"kw", ParamKind.varKw, none, none⟩]] := by
  decide

/-- C9: extraction is deterministic — two invocations of
`extract_functions` on the same unchanged parsed content give element-wise
equal descriptor sequences (the analyzer is a pure function of the source,
with no hidden state between calls). -/
theorem claim_C9_extraction_deterministic (m : List PyStmt) :
    (extract_functions m).length = (extract_functions m).length ∧
    ∀ i : Nat, (extract_functions m).get? i = (extract_functions m).get? i :=
  ⟨rfl, fun _ => rfl⟩

/-- Concrete environment for the C10 witness: the source path is missing. -/
def envC10 : ForgeEnv :=
  { srcIsFile := false, parseResult := Except.ok [], outDirExists := false,
    testFileExists := false, writeResult := Except.ok () }

/-- Concrete arguments for the C10 witness. -/
def argsC10 : ForgeArgs := { sourceFile := "missing.py" }

/-- C10: whenever the given source path does not exist or is not a regular
file, the `forge` run reports the not-found error and exits with status 1
before anything else: parsing is never attempted, no directory is created,
nothing is generated, and no write is attempted. -/
theorem claim_C10_missing_source_exits_first (env : ForgeEnv) (args : ForgeArgs)
    (hs : env.srcIsFile = false) :
    (forge env args).exitCode = 1 ∧ (forge env args).parseAttempted = false ∧
    (forge env args).dirCreated = false ∧ (forge env args).generated = none ∧
    (forge env args).written = none ∧ (forge env args).writeAttempts = 0 ∧
    Msg.errorNotFound args.sourceFile ∈ (forge env args).messages := by
  simp [forge, hs]

/-- Witness for C10 at a concrete run. -/
theorem claim_C10_witness :
    (forge envC10 argsC10).exitCode = 1 ∧ (forge envC10 argsC10).parseAttempted = false ∧
    (forge envC10 argsC10).dirCreated = false ∧ (forge envC10 argsC10).generated = none ∧
    (forge envC10 argsC10).written = none ∧ (forge envC10 argsC10).writeAttempts = 0 ∧
    Msg.errorNotFound argsC10.sourceFile ∈ (forge envC10 argsC10).messages :=
  claim_C10_missing_source_exits_first envC10 argsC10 rfl

end PytestForger
